import Mathlib

/-!
Shallow embedding of the `finder-linux` application-launcher popup.

The repository has two variants of the same GTK launcher:
* `src/main.py`  — global-hotkey variant (`SearchBar` window, `MyApp`);
* `src/temp.py`  — windowed variant (`AppWindow`, `MyApplication`).

Python strings are modelled as lists of characters (`Str`), so that the
Python operations `str.lower()`, `str.strip()` and `q in s` (substring
containment) become executable Lean functions.  The GTK widget state that
the handlers read and write (search-entry text, the rows of the results
list box, the single selection, the focus location, window visibility,
process termination) is collected in `WinState`; each signal handler of
the source becomes a function on `WinState`.  Key handlers return the
boolean the GTK handler returns (`True` = the event is consumed and not
propagated further).
-/

/-- Python `str`, modelled as a list of characters. -/
abbrev Str := List Char

/-- Python `s.lower()`: lowercase every character. -/
def lowerStr (s : Str) : Str := s.map Char.toLower

/-- Python `s.strip()`: drop whitespace from both ends. -/
def stripStr (s : Str) : Str :=
  ((s.dropWhile Char.isWhitespace).reverse.dropWhile Char.isWhitespace).reverse

/-- Python `q in s`: `q` occurs in `s` as a contiguous substring. -/
def inStr (q s : Str) : Bool := decide (List.IsInfix q s)

/-- The fields of a `Gio.DesktopAppInfo` that the filter reads:
`get_display_name()`, `get_description()` (may be `None`),
`get_keywords()` (may be absent).  Icon and launch command are opaque
to the filter and are not modelled. -/
structure AppInfo where
  display_name : Str
  description : Option Str
  keywords : Option (List Str)
deriving DecidableEq

/-- Python truthiness-guarded description check of both variants:
`app_info.get_description() and query in app_info.get_description().lower()`.
`None` and the empty string are falsy, so the containment test only runs
on a present, non-empty description. -/
def descMatch (q : Str) (a : AppInfo) : Bool :=
  match a.description with
  | none => false
  | some d => !d.isEmpty && inStr q (lowerStr d)

/-- Keyword check of `temp.py` (`AppWindow.filter_applications`):
`app_info.get_keywords() and any(query in k.lower() for k in app_info.get_keywords())`.
An absent or empty keyword list is falsy. -/
def kwMatch (q : Str) (a : AppInfo) : Bool :=
  match a.keywords with
  | none => false
  | some ks => !ks.isEmpty && ks.any (fun k => inStr q (lowerStr k))

/-- Per-descriptor predicate of `SearchBar.filter_applications`
(src/main.py lines 198-199): name or description only — the keyword
check announced by the comment on line 197 is absent from the code. -/
def mainMatch (q : Str) (a : AppInfo) : Bool :=
  inStr q (lowerStr a.display_name) || descMatch q a

/-- Per-descriptor predicate of `AppWindow.filter_applications`
(src/temp.py lines 139-141): name, description or keywords. -/
def tempMatch (q : Str) (a : AppInfo) : Bool :=
  inStr q (lowerStr a.display_name) || descMatch q a || kwMatch q a

/-- `SearchBar.filter_applications` (src/main.py): appending one row per
matching descriptor of `all_apps`, in order, is `List.filter`. -/
def filter_applications_main (q : Str) (all : List AppInfo) : List AppInfo :=
  all.filter (mainMatch q)

/-- `AppWindow.filter_applications` (src/temp.py). -/
def filter_applications_temp (q : Str) (all : List AppInfo) : List AppInfo :=
  all.filter (tempMatch q)

/-- Where keyboard focus sits: the search entry or the results list box. -/
inductive FocusTarget where
  | SEARCH_FIELD
  | RESULT_LIST
deriving DecidableEq

/-- The widget state the handlers read and write.
`raw_text` is the search entry text; `results` the rows of
`results_listbox` (each row stores its `app_info`); `selected` the index
of the selected row, if any (`get_selected_row()`); `focus` where
keyboard focus is; `visible` the window visibility; `terminated` whether
the application has quit (only `temp.py` quits after a launch). -/
structure WinState where
  raw_text : Str
  results : List AppInfo
  selected : Option Nat
  focus : FocusTarget
  visible : Bool
  terminated : Bool
deriving DecidableEq

/-- Keys the source handlers distinguish. -/
inductive Key where
  | down
  | up
  | escape
  | other
deriving DecidableEq

/-- `SearchBar.on_search_changed` (src/main.py lines 171-192): normalize
the entry text with `strip().lower()`, remove every row (which drops the
list-box selection), and repopulate via `filter_applications` only when
the normalized query is non-empty.  The window-resize calls only touch
presentation and are not modelled. -/
def on_search_changed_main (all : List AppInfo) (s : WinState) : WinState :=
  let q := lowerStr (stripStr s.raw_text)
  let res := if q.length > 0 then filter_applications_main q all else []
  { s with results := res, selected := none }

/-- `AppWindow.on_search_changed` (src/temp.py lines 124-133): same
structure, using the temp-variant filter. -/
def on_search_changed_temp (all : List AppInfo) (s : WinState) : WinState :=
  let q := lowerStr (stripStr s.raw_text)
  let res := if q.length > 0 then filter_applications_temp q all else []
  { s with results := res, selected := none }

/-- `SearchBar.on_search_key_pressed` (src/main.py lines 126-156), the
key controller of the search entry.  Returns `(consumed, new state)`.
Non-arrow keys and an empty list propagate (`False`).  Down moves the
selection from `current_index` (`-1` when nothing is selected) to the
next row when one exists; Up moves it back when the index is positive;
both return `True`.  Focus is never moved. -/
def on_search_key_pressed_main (s : WinState) (k : Key) : Bool × WinState :=
  match k with
  | Key.down =>
    let n := s.results.length
    if n = 0 then (false, s)
    else
      let ci : Int := match s.selected with | none => -1 | some i => (i : Int)
      if ci < (n : Int) - 1 then (true, { s with selected := some (ci + 1).toNat })
      else (true, s)
  | Key.up =>
    let n := s.results.length
    if n = 0 then (false, s)
    else
      match s.selected with
      | none => (true, s)
      | some i => if i > 0 then (true, { s with selected := some (i - 1) }) else (true, s)
  | _ => (false, s)

/-- `AppWindow.on_search_key_pressed` (src/temp.py lines 100-109): on
Down with at least one row, grab focus on the list box, select row 0 and
consume; everything else propagates. -/
def on_search_key_pressed_temp (s : WinState) (k : Key) : Bool × WinState :=
  match k with
  | Key.down =>
    if s.results.isEmpty then (false, s)
    else (true, { s with focus := FocusTarget.RESULT_LIST, selected := some 0 })
  | _ => (false, s)

/-- `on_list_key_pressed` (identical in src/main.py lines 158-164 and
src/temp.py lines 111-117), the key controller of the results list box:
Escape moves focus back to the search entry and is consumed; every other
key — directional keys included — propagates to the default list-box
behavior. -/
def on_list_key_pressed (s : WinState) (k : Key) : Bool × WinState :=
  match k with
  | Key.escape => (true, { s with focus := FocusTarget.SEARCH_FIELD })
  | _ => (false, s)

/-- `SearchBar.on_result_activated` (src/main.py lines 205-213): launch
the row's application; on success hide the window; on `GLib.Error` print
the message and change nothing.  The external launch outcome is the
parameter `launch_ok`. -/
def on_result_activated_main (s : WinState) ( launch_ok : Bool) : WinState :=
  if launch_ok then { s with visible := false } else s

/-- `AppWindow.on_result_activated` (src/temp.py lines 147-155): launch;
on success quit the whole application; on `GLib.Error` print and change
nothing. -/
def on_result_activated_temp (s : WinState) ( launch_ok : Bool) : WinState :=
  if launch_ok then { s with terminated := true } else s

/-- `SearchBar.on_search_activate` (src/main.py lines 120-124), run when
Enter is pressed in the search entry: if a row is selected, activate it;
otherwise do nothing.  The first component records whether a launch was
attempted at all. -/
def on_search_activate (s : WinState) ( launch_ok : Bool) : Bool × WinState :=
  match s.selected with
  | some _ => (true, on_result_activated_main s launch_ok)
  | none => (false, s)

/-- `SearchBar.on_hide_shortcut` (src/main.py lines 215-218): the hide
callback only calls `set_visible(False)`; nothing else is touched. -/
def on_hide_shortcut (s : WinState) : WinState :=
  { s with visible := false }

/-- `MyApp.on_hide_shortcut` (src/main.py lines 286-294): the global
hotkey callback marshals `self.win.on_hide_shortcut` onto the UI thread
via `GLib.idle_add`; its UI-thread effect is exactly
`SearchBar.on_hide_shortcut`. -/
def myapp_on_hide_shortcut (s : WinState) : WinState :=
  on_hide_shortcut s

/-- `MyApp.do_activate` / `MyApplication.do_activate`: present the window
and focus the search entry. -/
def do_activate (s : WinState) : WinState :=
  { s with visible := true, focus := FocusTarget.SEARCH_FIELD }

/-- The UI events of the global-hotkey variant, as dispatched by GTK to
the handlers above. -/
inductive Event where
  | setText (t : Str)
  | keySearch (k : Key)
  | keyList (k : Key)
  | selectRow (i : Nat)
  | activateRow (i : Nat) ( launch_ok : Bool)
  | searchActivate ( launch_ok : Bool)
  | hideWin
  | showWin

/-- One UI-loop step of the global-hotkey variant (src/main.py): which
handler runs for each event.  `setText t` is the user editing the entry,
which fires `on_search_changed`; `selectRow i` is the list box selecting
an existing row (pointer click), a no-op for an out-of-range index;
`activateRow` fires `row-activated` on an existing row. -/
def step (all : List AppInfo) (s : WinState) (e : Event) : WinState :=
  match e with
  | Event.setText t => on_search_changed_main all { s with raw_text := t }
  | Event.keySearch k => (on_search_key_pressed_main s k).2
  | Event.keyList k => (on_list_key_pressed s k).2
  | Event.selectRow i =>
      if i < s.results.length then { s with selected := some i } else s
  | Event.activateRow i ok =>
      if i < s.results.length then on_result_activated_main s ok else s
  | Event.searchActivate ok => (on_search_activate s ok).2
  | Event.hideWin => on_hide_shortcut s
  | Event.showWin => do_activate s

/-- The selection invariant: a selected index, when present, addresses an
existing row of the results list box. -/
def selected_valid (s : WinState) : Bool :=
  match s.selected with
  | none => true
  | some i => decide (i < s.results.length)

/-- Concrete descriptor used in witnesses: keyword-only match. -/
def dKw : AppInfo :=
  { display_name := "files".toList
    description := none
    keywords := some ["web".toList] }

/-- Concrete descriptor used in witnesses: name match. -/
def dFx : AppInfo :=
  { display_name := "firefox".toList
    description := some "web browser".toList
    keywords := some ["internet".toList] }

/-- The query string "web". -/
def qWeb : Str := "web".toList

/-- Concrete states used by counterexamples and witnesses. -/
def sTyped : WinState :=
  { raw_text := "web".toList
    results := [dFx]
    selected := some 0
    focus := FocusTarget.RESULT_LIST
    visible := true
    terminated := false }

/-- A state with whitespace-only entry text. -/
def sBlank : WinState :=
  { raw_text := "   ".toList
    results := [dFx]
    selected := some 0
    focus := FocusTarget.SEARCH_FIELD
    visible := true
    terminated := false }

/-- A state with one result and no selection, focus on the search entry. -/
def sNoSel : WinState :=
  { raw_text := "fire".toList
    results := [dFx]
    selected := none
    focus := FocusTarget.SEARCH_FIELD
    visible := true
    terminated := false }

/-- C1: the descriptor `dKw` (name "files", no description, keyword
"web") matches the query "web" under the spec predicate — implemented
faithfully by `temp.py`, whose filter keeps it — but
`SearchBar.filter_applications` in `main.py` omits the keyword check its
own comment announces and drops the descriptor, refuting the claimed
completeness of the filter for that variant. -/
theorem c1_keyword_divergence :
    tempMatch qWeb dKw = true ∧
    filter_applications_temp qWeb [dKw] = [dKw] ∧
    filter_applications_main qWeb [dKw] = [] := by
  decide

/-- C2 counterexample: hiding from a state whose entry text is "web" and
whose result list is non-empty leaves both intact, so `hide()` does not
reset the query to "" nor clear the results as the claim states. -/
theorem c2_counterexample :
    ¬ ((on_hide_shortcut sTyped).raw_text = [] ∧
       (on_hide_shortcut sTyped).results = []) := by
  decide

/-- C2 (amended): for every state — the already-hidden states included —
`hide()` (both the window shortcut callback and the UI-thread effect of
the global-hotkey callback) sets visibility to false and leaves the
query text, the result list and the selection unchanged, so reopening
the popup resumes with the last-used query. -/
theorem c2_hide_preserves_query (s : WinState) :
    (on_hide_shortcut s).visible = false ∧
    (myapp_on_hide_shortcut s).visible = false ∧
    (on_hide_shortcut s).raw_text = s.raw_text ∧
    (on_hide_shortcut s).results = s.results ∧
    (on_hide_shortcut s).selected = s.selected := by
  simp [on_hide_shortcut, myapp_on_hide_shortcut]

/-- C4: in both variants, activating a descriptor whose external launch
invocation fails leaves the whole widget state unchanged — in particular
the window stays visible, the results, selection and query are intact,
and the process is not terminated. -/
theorem c4_launch_failure_preserves_state (s : WinState) :
    on_result_activated_main s false = s ∧
    on_result_activated_temp s false = s ∧
    (on_result_activated_main s false).visible = s.visible ∧
    (on_result_activated_main s false).terminated = s.terminated ∧
    (on_result_activated_temp s false).terminated = s.terminated := by
  simp [on_result_activated_main, on_result_activated_temp]

/-- C5: whenever the entry text is empty after `strip().lower()`
(whitespace-only text included), a search-changed event leaves the
result list empty in both variants: the filter is not run at all and the
cleared list box stays empty. -/
theorem c5_empty_query_no_results (all : List AppInfo) (s : WinState)
    (h : lowerStr (stripStr s.raw_text) = []) :
    (on_search_changed_main all s).results = [] ∧
    (on_search_changed_temp all s).results = [] := by
  simp [on_search_changed_main, on_search_changed_temp, h]

/-- C5 witness: the whitespace-only query "   " over a two-descriptor
directory yields no results in either variant. -/
theorem c5_witness :
    (on_search_changed_main [dFx, dKw] sBlank).results = [] ∧
    (on_search_changed_temp [dFx, dKw] sBlank).results = [] :=
  c5_empty_query_no_results [dFx, dKw] sBlank (by decide)

/-- C10: pressing Enter in the search entry while no row is selected
attempts no launch and returns the state unchanged — visibility, query
text, results and selection are all as before. -/
theorem c10_enter_no_selection_noop (s : WinState) ( launch_ok : Bool)
    (h : s.selected = none) :
    on_search_activate s launch_ok = (false, s) := by
  simp [on_search_activate, h]

/-- C10 witness: Enter with no selection in a concrete one-result state
is a no-op even when the launch would have succeeded. -/
theorem c10_witness : on_search_activate sNoSel true = (false, sNoSel) :=
  c10_enter_no_selection_noop sNoSel true (by decide)

/-- A state with one result, row 0 selected, focus on the search entry. -/
def sSel0 : WinState :=
  { raw_text := "fire".toList
    results := [dFx]
    selected := some 0
    focus := FocusTarget.SEARCH_FIELD
    visible := true
    terminated := false }

/-- The query string "fil". -/
def qFil : Str := "fil".toList

/-- C3 counterexample: in the global-hotkey variant, Down in the search
field of `sNoSel` (focus on the search entry, one result, nothing
selected) is handled by `SearchBar.on_search_key_pressed`, which selects
a row but never calls `grab_focus` on the list, so focus does not move
to RESULT_LIST as the claim requires. -/
theorem c3_counterexample :
    sNoSel.focus = FocusTarget.SEARCH_FIELD ∧
    sNoSel.results ≠ [] ∧
    (on_search_key_pressed_main sNoSel Key.down).2.focus ≠ FocusTarget.RESULT_LIST := by
  decide

/-- C3 (amended): in the windowed variant (`temp.py`), a directional-down
while focus is on the search field and the result list is non-empty
moves focus to RESULT_LIST, selects row 0 and is consumed; in the
global-hotkey variant (`main.py`) the event is likewise consumed but
focus stays on the search field (the handler moves the selection
instead). -/
theorem c3_down_moves_focus (s : WinState)
    (hf : s.focus = FocusTarget.SEARCH_FIELD) (h : s.results ≠ []) :
    (on_search_key_pressed_temp s Key.down).1 = true ∧
    (on_search_key_pressed_temp s Key.down).2.focus = FocusTarget.RESULT_LIST ∧
    (on_search_key_pressed_temp s Key.down).2.selected = some 0 ∧
    (on_search_key_pressed_main s Key.down).1 = true ∧
    (on_search_key_pressed_main s Key.down).2.focus = FocusTarget.SEARCH_FIELD := by
  have hne : s.results.isEmpty = false := by
    cases hr : s.results with
    | nil => exact absurd hr h
    | cons a t => simp
  have hn : ¬ (s.results.length = 0) := by
    simpa [List.length_eq_zero] using h
  simp only [on_search_key_pressed_temp, on_search_key_pressed_main, hne, if_neg hn]
  refine ⟨rfl, rfl, rfl, ?_, ?_⟩ <;> split <;> simp [hf]

/-- C3 witness: the amended statement at the concrete state `sNoSel`. -/
theorem c3_witness :
    (on_search_key_pressed_temp sNoSel Key.down).1 = true ∧
    (on_search_key_pressed_temp sNoSel Key.down).2.focus = FocusTarget.RESULT_LIST ∧
    (on_search_key_pressed_temp sNoSel Key.down).2.selected = some 0 ∧
    (on_search_key_pressed_main sNoSel Key.down).1 = true ∧
    (on_search_key_pressed_main sNoSel Key.down).2.focus = FocusTarget.SEARCH_FIELD :=
  c3_down_moves_focus sNoSel (by decide) (by decide)

/-- C7 counterexample: with focus on the results list (state `sTyped`,
one row, row 0 selected — index 0 is both the first and the last index)
the repository's list key controller `on_list_key_pressed` returns
`False` for both Down and Up, so the events are NOT consumed by the
application while focus_target = RESULT_LIST; they propagate to the
default GTK list-box behavior. -/
theorem c7_counterexample :
    sTyped.focus = FocusTarget.RESULT_LIST ∧
    sTyped.selected = some (sTyped.results.length - 1) ∧
    sTyped.selected = some 0 ∧
    (on_list_key_pressed sTyped Key.down).1 = false ∧
    (on_list_key_pressed sTyped Key.up).1 = false := by
  decide

/-- C7 (amended): the no-wraparound behavior lives in the search-field
key handler of the global-hotkey variant: while focus is on the search
field with a non-empty result list, a directional-down when the selected
index is the last index returns `(True, unchanged state)`, and a
directional-up when the selected index is 0 likewise changes nothing and
is consumed. -/
theorem c7_no_wraparound (s : WinState)
    (hf : s.focus = FocusTarget.SEARCH_FIELD) (h : s.results ≠ []) :
    (s.selected = some (s.results.length - 1) →
      on_search_key_pressed_main s Key.down = (true, s)) ∧
    (s.selected = some 0 →
      on_search_key_pressed_main s Key.up = (true, s)) := by
  have hn : ¬ (s.results.length = 0) := by
    simpa [List.length_eq_zero] using h
  constructor
  · intro hsel
    simp only [on_search_key_pressed_main, hsel, if_neg hn]
    rw [if_neg (by omega)]
  · intro hsel
    simp only [on_search_key_pressed_main, hsel, if_neg hn]
    simp

/-- C7 witness: the amended statement at `sSel0`, whose single row makes
index 0 both the first and the last index. -/
theorem c7_witness :
    on_search_key_pressed_main sSel0 Key.down = (true, sSel0) ∧
    on_search_key_pressed_main sSel0 Key.up = (true, sSel0) :=
  ⟨(c7_no_wraparound sSel0 (by decide) (by decide)).1 (by decide),
   (c7_no_wraparound sSel0 (by decide) (by decide)).2 (by decide)⟩

/-- Characterization of the Down branch of the search-entry key handler
of `main.py` on a non-empty result list: nothing selected selects row 0;
a selected row advances by one unless already on the last row. -/
theorem on_search_key_down_eq (s : WinState) (hn : s.results.length ≠ 0) :
    on_search_key_pressed_main s Key.down =
      (true, { s with selected := some (match s.selected with
        | none => 0
        | some i => if i + 1 < s.results.length then i + 1 else i) }) := by
  obtain ⟨rt, res, sel, foc, vis, term⟩ := s
  replace hn : res.length ≠ 0 := hn
  cases sel with
  | none =>
    simp only [on_search_key_pressed_main]
    rw [if_neg hn, if_pos (by omega)]
    rfl
  | some i =>
    simp only [on_search_key_pressed_main]
    rw [if_neg hn]
    by_cases hlt : i + 1 < res.length
    · rw [if_pos (show (i : Int) < (res.length : Int) - 1 by omega), if_pos hlt]
      have ht : ((i : Int) + 1).toNat = i + 1 := by omega
      rw [ht]
    · rw [if_neg (show ¬ ((i : Int) < (res.length : Int) - 1) by omega), if_neg hlt]

/-- Characterization of the Up branch of the search-entry key handler of
`main.py` on a non-empty result list: no selection stays none; a
selected row moves back by one, bottoming out at row 0. -/
theorem on_search_key_up_eq (s : WinState) (hn : s.results.length ≠ 0) :
    on_search_key_pressed_main s Key.up =
      (true, { s with selected := match s.selected with
        | none => none
        | some i => some (i - 1) }) := by
  obtain ⟨rt, res, sel, foc, vis, term⟩ := s
  replace hn : res.length ≠ 0 := hn
  cases sel with
  | none =>
    simp only [on_search_key_pressed_main]
    rw [if_neg hn]
  | some i =>
    simp only [on_search_key_pressed_main]
    rw [if_neg hn]
    by_cases hp : i > 0
    · rw [if_pos hp]
    · rw [if_neg hp]
      have h0 : i = 0 := by omega
      subst h0
      rfl

/-- C9: in the global-hotkey variant, Down and Up in the search field
with a non-empty result list are always consumed, never move keyboard
focus, and never change the entry text or the results; Down selects row
0 when nothing is selected and otherwise advances the selected index,
capped at the last row; Up leaves an absent selection absent and
otherwise moves the selected index back by one, bottoming out at 0. -/
theorem c9_search_field_navigation (s : WinState) (h : s.results ≠ []) :
    (on_search_key_pressed_main s Key.down).1 = true ∧
    (on_search_key_pressed_main s Key.up).1 = true ∧
    (on_search_key_pressed_main s Key.down).2.focus = s.focus ∧
    (on_search_key_pressed_main s Key.up).2.focus = s.focus ∧
    (s.selected = none →
      (on_search_key_pressed_main s Key.down).2.selected = some 0) ∧
    (∀ i, s.selected = some i → i < s.results.length →
      (on_search_key_pressed_main s Key.down).2.selected
        = some (min (i + 1) (s.results.length - 1))) ∧
    (s.selected = none →
      (on_search_key_pressed_main s Key.up).2.selected = none) ∧
    (∀ i, s.selected = some i →
      (on_search_key_pressed_main s Key.up).2.selected = some (i - 1)) ∧
    (on_search_key_pressed_main s Key.down).2.raw_text = s.raw_text ∧
    (on_search_key_pressed_main s Key.up).2.raw_text = s.raw_text ∧
    (on_search_key_pressed_main s Key.down).2.results = s.results ∧
    (on_search_key_pressed_main s Key.up).2.results = s.results := by
  have hn : s.results.length ≠ 0 := by
    simpa [List.length_eq_zero] using h
  rw [on_search_key_down_eq s hn, on_search_key_up_eq s hn]
  refine ⟨rfl, rfl, rfl, rfl, ?_, ?_, ?_, ?_, rfl, rfl, rfl, rfl⟩
  · intro hsel
    simp [hsel]
  · intro i hsel hi
    simp only [hsel]
    have he : (if i + 1 < s.results.length then i + 1 else i)
        = min (i + 1) (s.results.length - 1) := by
      split <;> omega
    rw [he]
  · intro hsel
    simp [hsel]
  · intro i hsel
    simp [hsel]

/-- C9 witness: a Down press at `sNoSel` (one result, nothing selected)
is consumed, keeps focus on the search field and selects row 0. -/
theorem c9_witness :
    (on_search_key_pressed_main sNoSel Key.down).1 = true ∧
    (on_search_key_pressed_main sNoSel Key.down).2.focus = sNoSel.focus ∧
    (on_search_key_pressed_main sNoSel Key.down).2.selected = some 0 :=
  ⟨(c9_search_field_navigation sNoSel (by decide)).1,
   (c9_search_field_navigation sNoSel (by decide)).2.2.1,
   (c9_search_field_navigation sNoSel (by decide)).2.2.2.2.1 rfl⟩

/-- C6: one UI-loop step of the global-hotkey variant preserves the
selection invariant — a present selected index addresses an existing row
— and every rebuild of the result list (a search-changed event) resets
the selection to none. -/
theorem c6_selection_invariant (all : List AppInfo) (s : WinState) (e : Event)
    (h : selected_valid s = true) :
    selected_valid (step all s e) = true ∧
    (∀ t, (step all s (Event.setText t)).selected = none) := by
  refine ⟨?_, fun t => rfl⟩
  cases e with
  | setText t => rfl
  | keySearch k =>
    cases k with
    | down =>
      by_cases hn : s.results.length = 0
      · show selected_valid (on_search_key_pressed_main s Key.down).2 = true
        simp only [on_search_key_pressed_main, if_pos hn]
        exact h
      · show selected_valid (on_search_key_pressed_main s Key.down).2 = true
        rw [on_search_key_down_eq s hn]
        cases hsel : s.selected with
        | none =>
          simp only [hsel, selected_valid]
          simpa using by omega
        | some i =>
          have hi : i < s.results.length := by
            simpa [selected_valid, hsel] using h
          simp only [hsel, selected_valid]
          simpa using by split <;> omega
    | up =>
      by_cases hn : s.results.length = 0
      · show selected_valid (on_search_key_pressed_main s Key.up).2 = true
        simp only [on_search_key_pressed_main, if_pos hn]
        exact h
      · show selected_valid (on_search_key_pressed_main s Key.up).2 = true
        rw [on_search_key_up_eq s hn]
        cases hsel : s.selected with
        | none => simp [hsel, selected_valid]
        | some i =>
          have hi : i < s.results.length := by
            simpa [selected_valid, hsel] using h
          simp only [hsel, selected_valid]
          simpa using by omega
    | escape => exact h
    | other => exact h
  | keyList k => cases k <;> exact h
  | selectRow i =>
    show selected_valid (if i < s.results.length
      then { s with selected := some i } else s) = true
    split
    · next hi => simpa [selected_valid] using hi
    · exact h
  | activateRow i ok =>
    show selected_valid (if i < s.results.length
      then on_result_activated_main s ok else s) = true
    split
    · cases ok <;> exact h
    · exact h
  | searchActivate ok =>
    show selected_valid (on_search_activate s ok).2 = true
    cases hsel : s.selected with
    | none => simp only [on_search_activate, hsel]; exact h
    | some i =>
      simp only [on_search_activate, hsel]
      cases ok <;> exact h
  | hideWin => exact h
  | showWin => exact h

/-- C6 witness: the invariant step at a concrete state — a Down press at
`sNoSel` keeps the selection valid, and a text edit resets it to none. -/
theorem c6_witness :
    selected_valid (step [dFx] sNoSel (Event.keySearch Key.down)) = true ∧
    (step [dFx] sNoSel (Event.setText "web".toList)).selected = none :=
  ⟨(c6_selection_invariant [dFx] sNoSel (Event.keySearch Key.down) (by decide)).1,
   (c6_selection_invariant [dFx] sNoSel (Event.keySearch Key.down) (by decide)).2
     "web".toList⟩

/-- C8: `SearchBar.filter_applications` returns an ordered subsequence
of `all_apps` — the relative enumeration order is preserved — and keeps
every matching occurrence, duplicates included: the multiplicity of a
matching descriptor in the output equals its multiplicity in the input. -/
theorem c8_filter_order_preserving (q : Str) (D : List AppInfo) :
    List.Sublist (filter_applications_main q D) D ∧
    (∀ d, mainMatch q d = true →
      List.count d (filter_applications_main q D) = List.count d D) := by
  constructor
  · exact List.filter_sublist D
  · intro d hd
    exact List.count_filter hd

/-- C8 witness: the query "fil" over a directory that lists the same
descriptor twice keeps both copies, in order. -/
theorem c8_witness :
    List.Sublist (filter_applications_main qFil [dKw, dKw]) [dKw, dKw] ∧
    List.count dKw (filter_applications_main qFil [dKw, dKw])
      = List.count dKw [dKw, dKw] :=
  ⟨(c8_filter_order_preserving qFil [dKw, dKw]).1,
   (c8_filter_order_preserving qFil [dKw, dKw]).2 dKw (by decide)⟩
